import Mathlib

/-!
Shallow embedding of the incremental feed controller found in the seedit
author and profile views (src/views/author/author.tsx and
src/views/profile/profile.tsx): projection filters, stable timestamp
sorting, client-side pagination, the error-visibility gates, the
diagnostic error logger, the virtuoso snapshot store and its keys, and
the footer and empty states.
-/

namespace Seedit

/-- A content item as observed by the feed controller: a comment or post with
an identifier, an optional parent identifier (present means the item is a
reply), and a creation timestamp. -/
structure Item where
  cid : String
  parentCid : Option String
  timestamp : Int
deriving DecidableEq, Repr

/-- An account vote record as returned by useAccountVotes: the identifier of
the voted comment, the vote sign, and the vote timestamp. -/
structure Vote where
  commentCid : String
  vote : Int
  timestamp : Int
deriving DecidableEq, Repr

/-- Fixed page size of the client-paged feeds (profile.tsx line 14). -/
def pageSize : Nat := 10

/-- JavaScript Array.prototype.slice for non-negative indices. -/
def jsSlice (l : List α) (start stop : Nat) : List α :=
  (l.take stop).drop start

/-- Ordering induced by the comparator used by every sort call in the two
views, sort((a, b) => sortType === "new" ? b.timestamp - a.timestamp
: a.timestamp - b.timestamp): a stable sort keeps a before b exactly when
the comparator value is nonpositive, which is this relation on the two
timestamps. -/
def tsLE (sortType : String) (ta tb : Int) : Prop :=
  if sortType = "new" then tb ≤ ta else ta ≤ tb

instance (s : String) (ta tb : Int) : Decidable (tsLE s ta tb) := by
  unfold tsLE; split <;> infer_instance

/-- Relation on values with a timestamp accessor, as compared by the sort. -/
def tsRel (ts : α → Int) (sortType : String) : α → α → Prop :=
  fun a b => tsLE sortType (ts a) (ts b)

instance (ts : α → Int) (s : String) : DecidableRel (tsRel ts s) := fun _ _ => by
  unfold tsRel; infer_instance

instance (ts : α → Int) (s : String) : IsTotal α (tsRel ts s) where
  total a b := by unfold tsRel tsLE; split <;> omega

instance (ts : α → Int) (s : String) : IsTrans α (tsRel ts s) where
  trans a b c := by unfold tsRel tsLE; split <;> omega

/-- Stable sort by timestamp, modelling ES2019 Array.prototype.sort (required
to be stable) applied with the comparator above. -/
def sortByTimestamp (ts : α → Int) (sortType : String) (l : List α) : List α :=
  l.insertionSort (tsRel ts sortType)

/-- Sorted comments of the overview, comments and submitted views
(profile.tsx lines 143 to 145, 184 to 186, 225 to 227). -/
def sortComments (sortType : String) (l : List Item) : List Item :=
  sortByTimestamp Item.timestamp sortType l

/-- Sorted votes of the voted views (profile.tsx line 267). -/
def sortVotes (sortType : String) (l : List Vote) : List Vote :=
  sortByTimestamp Vote.timestamp sortType l

/-- Reply filter (author.tsx line 38, profile.tsx line 182): comments whose
parent identifier is present. -/
def replyComments (comments : List Item) : List Item :=
  comments.filter (fun c => c.parentCid.isSome)

/-- Post filter (author.tsx line 39, profile.tsx line 223): comments whose
parent identifier is absent. -/
def postComments (comments : List Item) : List Item :=
  comments.filter (fun c => !c.parentCid.isSome)

/-- Data selection per author sub-view (author.tsx lines 53 to 60). -/
def virtuosoData (isInAuthorCommentsView isInAuthorSubmittedView : Bool)
    (authorComments : List Item) : List Item :=
  if isInAuthorCommentsView then replyComments authorComments
  else if isInAuthorSubmittedView then postComments authorComments
  else authorComments

/-- Voted feed identifier sequence (profile.tsx lines 265 to 269): filter the
account votes by vote sign, sort by timestamp, map to comment identifiers. -/
def votedCommentCids (accountVotes : List Vote) (voteType : Int) (sortType : String) :
    List String :=
  (sortVotes sortType (accountVotes.filter (fun v => v.vote == voteType))).map Vote.commentCid

/-- Visible slice of the voted feed (profile.tsx line 271):
votedCommentCids.slice((currentPage - 1) * pageSize, currentPage * pageSize). -/
def paginatedCids (cids : List String) (currentPage : Nat) : List String :=
  jsSlice cids ((currentPage - 1) * pageSize) (currentPage * pageSize)

/-- Voted feed hasMore (profile.tsx line 272). -/
def votedHasMore (cids : List String) (currentPage : Nat) : Bool :=
  decide (currentPage * pageSize < cids.length)

/-- Visible slice of the hidden feed (profile.tsx lines 309 to 312):
allHiddenCids.slice(0, currentPage * pageSize). -/
def hiddenCommentCids (allHiddenCids : List String) (currentPage : Nat) : List String :=
  jsSlice allHiddenCids 0 (currentPage * pageSize)

/-- Hidden feed hasMore (profile.tsx line 314). -/
def hiddenHasMore (allHiddenCids : List String) (currentPage : Nat) : Bool :=
  decide (currentPage * pageSize < allHiddenCids.length)

/-- One re-evaluation of the error-visibility effect shared by the author view
(author.tsx lines 91 to 97) and the overview, comments and submitted views
(profile.tsx lines 147 to 153, 188 to 194, 229 to 235). Here errorMessage
models error?.message and count is the length of the projected data. -/
def gateStep (errorMessage : Option String) (count : Nat) (shown : Bool) : Bool :=
  if errorMessage.isSome ∧ count = 0 then true
  else if 0 < count then false
  else shown

/-- One re-evaluation of the error-visibility effect of the voted feeds
(profile.tsx lines 274 to 280), which additionally requires hasMore before
showing the error. -/
def votedGateStep (errorMessage : Option String) (accountVotes : List Vote) (voteType : Int)
    (sortType : String) (currentPage : Nat) (shown : Bool) : Bool :=
  let cids := votedCommentCids accountVotes voteType sortType
  if errorMessage.isSome ∧ (paginatedCids cids currentPage).length = 0
      ∧ votedHasMore cids currentPage = true then true
  else if 0 < (paginatedCids cids currentPage).length then false
  else shown

/-- One observed combination of inputs to the voted feed effect. -/
structure VotedInput where
  errorMessage : Option String
  accountVotes : List Vote
  voteType : Int
  sortType : String
  currentPage : Nat
deriving Repr

/-- Error-visibility flag of a voted feed after a sequence of input updates,
starting from the initial useState(false). -/
def votedGateRun (events : List VotedInput) : Bool :=
  events.foldl
    (fun shown e =>
      votedGateStep e.errorMessage e.accountVotes e.voteType e.sortType e.currentPage shown)
    false

/-- Virtuoso state snapshot: the rendered ranges plus the scroll offset. -/
structure Snapshot where
  ranges : List (Nat × Nat)
  scrollTop : Int
deriving DecidableEq, Repr

/-- Process-wide snapshot store, one optional entry per key. -/
def SnapshotStore := String → Option Snapshot

def emptyStore : SnapshotStore := fun _ => none

/-- Scroll handler body (author.tsx lines 63 to 69, profile.tsx lines 111 to
116): the snapshot is stored under its key only when snapshot.ranges.length is
truthy, that is nonzero. -/
def saveSnapshot (store : SnapshotStore) (key : String) (snapshot : Snapshot) : SnapshotStore :=
  if snapshot.ranges.length ≠ 0 then
    fun k => if k = key then some snapshot else store k
  else store

/-- All scroll events of a session applied to the initially empty store. -/
def runScrollEvents (events : List (String × Snapshot)) : SnapshotStore :=
  events.foldl (fun store e => saveSnapshot store e.1 e.2) emptyStore

/-- Snapshot key of the author view (author.tsx lines 66 and 74): a template
literal concatenating authorAddress and sortType, each defaulted to the empty
string, with no separator. -/
def snapshotKey (authorAddress sortType : Option String) : String :=
  authorAddress.getD "" ++ sortType.getD ""

/-- Snapshot key of the profile views (profile.tsx lines 109 and 114):
JavaScript string addition of account?.shortAddress and params.sortType, an
undefined operand printing as the string undefined. -/
def profileSnapshotKey (shortAddress sortType : Option String) : String :=
  shortAddress.getD "undefined" ++ sortType.getD "undefined"

/-- State of the diagnostic logger effect: the ref holding the previously
logged message, plus the list of messages logged so far. -/
structure LogState where
  prevErrorMessage : Option String
  log : List String
deriving DecidableEq, Repr

/-- Diagnostic logger effect (author.tsx lines 31 to 36, and the same effect
in each profile feed): log the error and remember its message when an error is
present and its message differs from the remembered one. -/
def logStep (st : LogState) (errorMessage : Option String) : LogState :=
  match errorMessage with
  | some m =>
    if st.prevErrorMessage ≠ some m then
      { prevErrorMessage := some m, log := st.log ++ [m] }
    else st
  | none => st

/-- Logger state after a sequence of observed error values, starting from the
initial ref value undefined and an empty log. -/
def logRun (events : List (Option String)) : LogState :=
  events.foldl logStep { prevErrorMessage := none, log := [] }

/-- Invariant of the logger: no two consecutive logged messages are equal, and
the remembered message is exactly the most recently logged one. -/
def LogInv (st : LogState) : Prop :=
  st.log.Chain' (· ≠ ·) ∧ st.prevErrorMessage = st.log.getLast?

/-- Footer of the author view (author.tsx lines 43 to 49): renders the loading
indicator iff hasMore. -/
def authorFooterLoading (hasMore : Bool) : Bool := hasMore

/-- Nothing-found state of the author view (author.tsx line 124). -/
def authorNothingFound (data : List Item) (hasMore : Bool) : Bool :=
  decide (data.length = 0) && !hasMore

/-- The overview, comments and submitted views destructure only error and
accountComments from useAccountComments: account comments are fully local, so
that adapter never has more to load. -/
def overviewHasMore : Bool := false

/-- Nothing-found state of the overview view (profile.tsx line 171); the
comments and submitted views are identical (lines 212 and 253). -/
def overviewNothingFound (sortedComments : List Item) : Bool :=
  decide (sortedComments.length = 0)

/-- Nothing-found state of the voted feeds (profile.tsx line 298). -/
def votedNothingFound (cids : List String) (currentPage : Nat) : Bool :=
  decide ((paginatedCids cids currentPage).length = 0)

/-- Nothing-found state of the hidden feed (profile.tsx line 318). -/
def hiddenNothingFound (allHiddenCids : List String) (currentPage : Nat) : Bool :=
  decide ((hiddenCommentCids allHiddenCids currentPage).length = 0)

/-! Helper lemmas. -/

theorem paginatedCids_length (cids : List String) (p : Nat) :
    (paginatedCids cids p).length = min (p * pageSize) cids.length - (p - 1) * pageSize := by
  simp [paginatedCids, jsSlice]

theorem votedHasMore_eq_false_of_empty {cids : List String} {p : Nat} (hp : 1 ≤ p)
    (h : (paginatedCids cids p).length = 0) : votedHasMore cids p = false := by
  rw [paginatedCids_length] at h
  simp only [votedHasMore, decide_eq_false_iff_not, not_lt, pageSize] at h ⊢
  omega

theorem hiddenCommentCids_eq_take (cids : List String) (p : Nat) :
    hiddenCommentCids cids p = cids.take (p * pageSize) := by
  simp [hiddenCommentCids, jsSlice]

theorem hiddenHasMore_eq_false_of_empty {cids : List String} {p : Nat} (hp : 1 ≤ p)
    (h : (hiddenCommentCids cids p).length = 0) : hiddenHasMore cids p = false := by
  rw [hiddenCommentCids_eq_take] at h
  simp only [List.length_take, hiddenHasMore, decide_eq_false_iff_not, not_lt, pageSize] at h ⊢
  omega

theorem votedGateStep_false (e : Option String) (votes : List Vote) (vt : Int)
    (st : String) (p : Nat) (hp : 1 ≤ p) : votedGateStep e votes vt st p false = false := by
  simp only [votedGateStep]
  split
  · rename_i h
    obtain ⟨-, hlen, hmore⟩ := h
    rw [votedHasMore_eq_false_of_empty hp hlen] at hmore
    exact absurd hmore Bool.false_ne_true
  · split <;> rfl

theorem votedGateRun_false : ∀ (events : List VotedInput),
    (∀ e ∈ events, 1 ≤ e.currentPage) → votedGateRun events = false
  | [], _ => rfl
  | e :: es, h => by
    unfold votedGateRun
    simp only [List.foldl_cons]
    rw [votedGateStep_false e.errorMessage e.accountVotes e.voteType e.sortType e.currentPage
      (h e (List.mem_cons_self e es))]
    exact votedGateRun_false es (fun x hx => h x (List.mem_cons_of_mem e hx))

theorem saveSnapshot_of_degenerate (store : SnapshotStore) (key : String)
    (snapshot : Snapshot) (h : snapshot.ranges = []) :
    saveSnapshot store key snapshot = store := by
  unfold saveSnapshot
  rw [if_neg]
  simp [h]

theorem saveSnapshot_sound {store : SnapshotStore}
    (h : ∀ k v, store k = some v → v.ranges ≠ []) (key : String) (snapshot : Snapshot)
    (k : String) (v : Snapshot) (hkv : saveSnapshot store key snapshot k = some v) :
    v.ranges ≠ [] := by
  unfold saveSnapshot at hkv
  by_cases hr : snapshot.ranges.length ≠ 0
  · rw [if_pos hr] at hkv
    by_cases hk : k = key
    · rw [if_pos hk] at hkv
      obtain rfl : snapshot = v := by injection hkv
      intro hnil
      exact hr (by rw [hnil]; rfl)
    · rw [if_neg hk] at hkv
      exact h k v hkv
  · rw [if_neg hr] at hkv
    exact h k v hkv

theorem runScrollEvents_sound : ∀ (events : List (String × Snapshot)) (store : SnapshotStore),
    (∀ k v, store k = some v → v.ranges ≠ []) →
    ∀ k v, (events.foldl (fun store e => saveSnapshot store e.1 e.2) store) k = some v →
      v.ranges ≠ []
  | [], _, h => h
  | e :: es, store, h => by
    simp only [List.foldl_cons]
    exact runScrollEvents_sound es _ (fun k v => saveSnapshot_sound h e.1 e.2 k v)

theorem logStep_inv {st : LogState} (h : LogInv st) (e : Option String) :
    LogInv (logStep st e) := by
  cases e with
  | none => exact h
  | some m =>
    simp only [logStep]
    by_cases hm : st.prevErrorMessage ≠ some m
    · rw [if_pos hm]
      obtain ⟨hc, hp⟩ := h
      constructor
      · rw [List.chain'_append]
        refine ⟨hc, List.chain'_singleton m, ?_⟩
        intro x hx y hy
        rw [Option.mem_def] at hx hy
        simp only [List.head?_cons, Option.some.injEq] at hy
        subst hy
        intro hxy
        subst hxy
        exact hm (hp.trans hx)
      · simp [List.getLast?_concat]
    · rw [if_neg hm]
      exact h

theorem logRun_inv : ∀ (events : List (Option String)) (st : LogState), LogInv st →
    LogInv (events.foldl logStep st)
  | [], _, h => h
  | e :: es, st, h => by
    simp only [List.foldl_cons]
    exact logRun_inv es (logStep st e) (logStep_inv h e)

theorem tsRel_new {ts : α → Int} {a b : α} (h : tsRel ts "new" a b) : ts b ≤ ts a := by
  simpa [tsRel, tsLE] using h

theorem tsRel_old {ts : α → Int} {a b : α} (h : tsRel ts "old" a b) : ts a ≤ ts b := by
  simpa [tsRel, tsLE] using h

theorem tsRel_of_eq {ts : α → Int} (s : String) {a b : α} (h : ts a = ts b) : tsRel ts s a b := by
  unfold tsRel tsLE
  split <;> omega

theorem paginatedCids_eq_window (cids : List String) (p : Nat) (hp : 1 ≤ p) :
    paginatedCids cids p = (cids.drop ((p - 1) * 10)).take 10 := by
  have h10 : p * 10 = (p - 1) * 10 + 10 := by omega
  simp only [paginatedCids, jsSlice, pageSize]
  rw [List.take_drop, h10]

/-! Claim theorems. -/

/-- C1, counterexample: with an error present and a projected item count of 0,
the author style gate transitions to Shown but the voted gate stays Hidden,
because the voted gate additionally requires hasMore; the transition rule is
therefore not the same for every feed kind. -/
theorem c1_counterexample :
    Option.isSome (some "failed") = true
    ∧ (paginatedCids (votedCommentCids [] 1 "new") 1).length = 0
    ∧ votedGateStep (some "failed") [] 1 "new" 1 false = false
    ∧ gateStep (some "failed") 0 false = true := by decide

/-- C1, amended: for the author, overview, comments and submitted feeds the
gate transitions from Hidden to Shown exactly when an error is present and the
projected item count is 0; the voted feeds additionally require hasMore, which
fails whenever the visible slice is empty, so their gate never leaves the
Hidden state. -/
theorem c1_gate_transition (e : Option String) (n : Nat) :
    (gateStep e n false = true ↔ e.isSome = true ∧ n = 0)
    ∧ ∀ (votes : List Vote) (vt : Int) (st : String) (p : Nat), 1 ≤ p →
      votedGateStep e votes vt st p false = false := by
  constructor
  · unfold gateStep
    split
    · rename_i h
      simpa using h
    · rename_i h
      split <;> simp_all
  · intro votes vt st p hp
    exact votedGateStep_false e votes vt st p hp

theorem c1_gate_transition_witness :
    (gateStep (some "failed") 0 false = true ↔
      Option.isSome (some "failed") = true ∧ 0 = 0)
    ∧ votedGateStep (some "failed") [] 1 "new" 1 false = false :=
  ⟨(c1_gate_transition (some "failed") 0).1,
   (c1_gate_transition (some "failed") 0).2 [] 1 "new" 1 (by decide)⟩

/-- C2, counterexample: with 25 identifiers the hidden feed page 3 slice has
length 25, not 5 as claimed, because the hidden feed slices cumulatively from
index 0 rather than by page window. -/
theorem c2_counterexample :
    (hiddenCommentCids (List.replicate 25 "c") 3).length = 25
    ∧ ¬((hiddenCommentCids (List.replicate 25 "c") 3).length = 5) := by decide

/-- C2, amended: for every page index at least 1, the voted feed slice is the
window from (page-1)*10 to page*10, while the hidden feed slice is cumulative
from 0 to page*10; for both feeds hasMore holds iff page*10 is less than the
sequence length; with 25 identifiers hasMore holds on pages 1 and 2 and fails
on page 3, the voted page 3 slice has length 5 and the hidden page 3 slice has
length 25. -/
theorem c2_pagination (cids : List String) (p : Nat) (hp : 1 ≤ p) :
    paginatedCids cids p = (cids.drop ((p - 1) * 10)).take 10
    ∧ hiddenCommentCids cids p = cids.take (p * 10)
    ∧ (votedHasMore cids p = true ↔ p * 10 < cids.length)
    ∧ (hiddenHasMore cids p = true ↔ p * 10 < cids.length)
    ∧ votedHasMore (List.replicate 25 "c") 1 = true
    ∧ votedHasMore (List.replicate 25 "c") 2 = true
    ∧ votedHasMore (List.replicate 25 "c") 3 = false
    ∧ hiddenHasMore (List.replicate 25 "c") 1 = true
    ∧ hiddenHasMore (List.replicate 25 "c") 2 = true
    ∧ hiddenHasMore (List.replicate 25 "c") 3 = false
    ∧ (paginatedCids (List.replicate 25 "c") 3).length = 5
    ∧ (hiddenCommentCids (List.replicate 25 "c") 3).length = 25 := by
  refine ⟨paginatedCids_eq_window cids p hp, ?_, ?_, ?_, ?_⟩
  · rw [hiddenCommentCids_eq_take]
    rfl
  · simp [votedHasMore, pageSize]
  · simp [hiddenHasMore, pageSize]
  · refine ⟨?_, ?_, ?_, ?_, ?_, ?_, ?_, ?_⟩ <;> decide

theorem c2_pagination_witness :
    paginatedCids (List.replicate 25 "c") 2 =
      ((List.replicate 25 "c").drop ((2 - 1) * 10)).take 10 :=
  (c2_pagination (List.replicate 25 "c") 2 (by decide)).1

/-- C3: in the voted feed an empty visible slice forces hasMore to be false,
so the show-error condition (error present, empty slice, hasMore) is never
satisfiable and the error-visibility flag stays false from the initial state
under every input sequence whose page indices are at least 1. -/
theorem c3_voted_gate_never_shown :
    (∀ (cids : List String) (p : Nat), 1 ≤ p →
      (paginatedCids cids p).length = 0 → votedHasMore cids p = false)
    ∧ ∀ (events : List VotedInput), (∀ e ∈ events, 1 ≤ e.currentPage) →
      votedGateRun events = false := by
  constructor
  · intro cids p hp h
    exact votedHasMore_eq_false_of_empty hp h
  · exact votedGateRun_false

theorem c3_voted_gate_never_shown_witness :
    votedHasMore ([] : List String) 1 = false
    ∧ votedGateRun [⟨some "err", [], 1, "new", 1⟩] = false :=
  ⟨c3_voted_gate_never_shown.1 [] 1 (by decide) (by decide),
   c3_voted_gate_never_shown.2 [⟨some "err", [], 1, "new", 1⟩] (by decide)⟩

/-- C4: every gate becomes Hidden as soon as the projected item count is
positive, regardless of error presence, and once Shown it stays Shown when the
error clears while the projection stays empty. -/
theorem c4_gate_hide_and_latch (e : Option String) (n : Nat) (s : Bool)
    (votes : List Vote) (vt : Int) (st : String) (p : Nat) :
    (0 < n → gateStep e n s = false)
    ∧ gateStep none 0 true = true
    ∧ (0 < (paginatedCids (votedCommentCids votes vt st) p).length →
        votedGateStep e votes vt st p s = false)
    ∧ ((paginatedCids (votedCommentCids votes vt st) p).length = 0 →
        votedGateStep none votes vt st p true = true) := by
  refine ⟨?_, by decide, ?_, ?_⟩
  · intro hn
    unfold gateStep
    rw [if_neg (by omega), if_pos hn]
  · intro hn
    simp only [votedGateStep]
    rw [if_neg (by omega), if_pos hn]
  · intro hn
    simp only [votedGateStep]
    rw [if_neg (by simp), if_neg (by omega)]

theorem c4_gate_hide_and_latch_witness :
    gateStep (some "failed") 3 true = false
    ∧ votedGateStep (some "failed") [⟨"c", 1, 5⟩] 1 "new" 1 true = false
    ∧ votedGateStep none [] 1 "new" 1 true = true :=
  ⟨(c4_gate_hide_and_latch (some "failed") 3 true [] 1 "new" 1).1 (by decide),
   (c4_gate_hide_and_latch (some "failed") 3 true [⟨"c", 1, 5⟩] 1 "new" 1).2.2.1 (by decide),
   (c4_gate_hide_and_latch (some "failed") 3 true [] 1 "new" 1).2.2.2 (by decide)⟩

/-- C5: every item lies in exactly one of the posts-only and replies-only
projections, decided solely by presence of its parent identifier, and the
union of the two projections equals the item set of the all projection. -/
theorem c5_filter_partition (l : List Item) (i : Item) :
    ((i ∈ postComments l ∨ i ∈ replyComments l) ↔ i ∈ l)
    ∧ ¬(i ∈ postComments l ∧ i ∈ replyComments l)
    ∧ (i ∈ replyComments l ↔ i ∈ l ∧ i.parentCid.isSome = true)
    ∧ (i ∈ postComments l ↔ i ∈ l ∧ i.parentCid.isSome = false) := by
  have hr : i ∈ replyComments l ↔ i ∈ l ∧ i.parentCid.isSome = true := by
    simp only [replyComments, List.mem_filter]
  have hp : i ∈ postComments l ↔ i ∈ l ∧ i.parentCid.isSome = false := by
    simp only [postComments, List.mem_filter, Bool.not_eq_true']
  refine ⟨⟨?_, ?_⟩, ?_, hr, hp⟩
  · rintro (h | h)
    · exact (hp.mp h).1
    · exact (hr.mp h).1
  · intro h
    cases hs : i.parentCid.isSome
    · exact Or.inl (hp.mpr ⟨h, hs⟩)
    · exact Or.inr (hr.mpr ⟨h, hs⟩)
  · rintro ⟨h1, h2⟩
    exact Bool.false_ne_true (((hp.mp h1).2).symm.trans ((hr.mp h2).2))

/-- C6: every sort in the views is a stable sort by timestamp, descending for
the new mode and ascending for the old mode, and any two entries with equal
timestamps keep their relative input order, both for comment sorting and for
vote sorting. -/
theorem c6_sort_stable (sortType : String) (l : List Item) (vl : List Vote) :
    (sortComments sortType l).Perm l
    ∧ List.Sorted (fun a b : Item => b.timestamp ≤ a.timestamp) (sortComments "new" l)
    ∧ List.Sorted (fun a b : Item => a.timestamp ≤ b.timestamp) (sortComments "old" l)
    ∧ (∀ a b : Item, a.timestamp = b.timestamp → List.Sublist [a, b] l →
        List.Sublist [a, b] (sortComments sortType l))
    ∧ (sortVotes sortType vl).Perm vl
    ∧ (∀ a b : Vote, a.timestamp = b.timestamp → List.Sublist [a, b] vl →
        List.Sublist [a, b] (sortVotes sortType vl)) := by
  refine ⟨List.perm_insertionSort _ l, ?_, ?_, ?_, List.perm_insertionSort _ vl, ?_⟩
  · exact (List.sorted_insertionSort _ l).imp fun h => tsRel_new h
  · exact (List.sorted_insertionSort _ l).imp fun h => tsRel_old h
  · intro a b hab hsub
    exact List.pair_sublist_insertionSort (tsRel_of_eq sortType hab) hsub
  · intro a b hab hsub
    exact List.pair_sublist_insertionSort (tsRel_of_eq sortType hab) hsub

theorem c6_sort_stable_witness :
    (⟨"a", none, 5⟩ : Item).timestamp = (⟨"b", none, 5⟩ : Item).timestamp
    ∧ List.Sublist [(⟨"a", none, 5⟩ : Item), ⟨"b", none, 5⟩]
        (sortComments "new" [⟨"a", none, 5⟩, ⟨"b", none, 5⟩]) :=
  ⟨rfl, (c6_sort_stable "new" [⟨"a", none, 5⟩, ⟨"b", none, 5⟩] []).2.2.2.1
    ⟨"a", none, 5⟩ ⟨"b", none, 5⟩ rfl (List.Sublist.refl _)⟩

/-- C7: a snapshot is stored only when its visible range list is nonempty: a
degenerate snapshot leaves the whole store unchanged, overwriting nothing, and
every snapshot present in the store after any sequence of scroll events has a
nonempty range list. -/
theorem c7_snapshot_nondegenerate :
    (∀ (store : SnapshotStore) (key : String) (snapshot : Snapshot),
      snapshot.ranges = [] → saveSnapshot store key snapshot = store)
    ∧ ∀ (events : List (String × Snapshot)) (k : String) (v : Snapshot),
      runScrollEvents events k = some v → v.ranges ≠ [] := by
  constructor
  · exact saveSnapshot_of_degenerate
  · intro events k v
    exact runScrollEvents_sound events emptyStore (fun _ _ h => Option.noConfusion h) k v

theorem c7_snapshot_nondegenerate_witness :
    saveSnapshot emptyStore "k" ⟨[], 0⟩ = emptyStore
    ∧ (⟨[(0, 2)], 5⟩ : Snapshot).ranges ≠ [] :=
  ⟨c7_snapshot_nondegenerate.1 emptyStore "k" ⟨[], 0⟩ rfl,
   c7_snapshot_nondegenerate.2 [("a", ⟨[(0, 2)], 5⟩)] "a" ⟨[(0, 2)], 5⟩ (by decide)⟩

/-- C8: the loading footer is rendered iff hasMore, and the nothing-found
state is rendered iff the final projected item count is 0 and hasMore is
false, in the author, overview, voted and hidden views. -/
theorem c8_footer_states (isc iss : Bool) (authorComments : List Item) (hasMore : Bool)
    (sorted : List Item) (cids hiddenCids : List String) (p : Nat) :
    (authorFooterLoading hasMore = true ↔ hasMore = true)
    ∧ (authorNothingFound (virtuosoData isc iss authorComments) hasMore = true ↔
        (virtuosoData isc iss authorComments).length = 0 ∧ hasMore = false)
    ∧ (overviewNothingFound sorted = true ↔ sorted.length = 0 ∧ overviewHasMore = false)
    ∧ (1 ≤ p → (votedNothingFound cids p = true ↔
        (paginatedCids cids p).length = 0 ∧ votedHasMore cids p = false))
    ∧ (1 ≤ p → (hiddenNothingFound hiddenCids p = true ↔
        (hiddenCommentCids hiddenCids p).length = 0 ∧ hiddenHasMore hiddenCids p = false)) := by
  refine ⟨Iff.rfl, ?_, ?_, ?_, ?_⟩
  · simp [authorNothingFound]
  · simp [overviewNothingFound, overviewHasMore]
  · intro hp
    constructor
    · intro h
      have hlen : (paginatedCids cids p).length = 0 := by simpa [votedNothingFound] using h
      exact ⟨hlen, votedHasMore_eq_false_of_empty hp hlen⟩
    · rintro ⟨h, -⟩
      simpa [votedNothingFound] using h
  · intro hp
    constructor
    · intro h
      have hlen : (hiddenCommentCids hiddenCids p).length = 0 := by
        simpa [hiddenNothingFound] using h
      exact ⟨hlen, hiddenHasMore_eq_false_of_empty hp hlen⟩
    · rintro ⟨h, -⟩
      simpa [hiddenNothingFound] using h

theorem c8_footer_states_witness :
    (votedNothingFound ([] : List String) 1 = true ↔
      (paginatedCids ([] : List String) 1).length = 0
        ∧ votedHasMore ([] : List String) 1 = false)
    ∧ (hiddenNothingFound ([] : List String) 1 = true ↔
      (hiddenCommentCids ([] : List String) 1).length = 0
        ∧ hiddenHasMore ([] : List String) 1 = false) :=
  ⟨(c8_footer_states true false [] true [] [] [] 1).2.2.2.1 (by decide),
   (c8_footer_states true false [] true [] [] [] 1).2.2.2.2 (by decide)⟩

/-- C9, counterexample: with the error message sequence A, B, A the message A
is logged twice in one feed instance, since the logger compares only against
the single most recently logged message. -/
theorem c9_counterexample :
    (logRun [some "A", some "B", some "A"]).log = ["A", "B", "A"]
    ∧ ¬((logRun [some "A", some "B", some "A"]).log.count "A" ≤ 1) := by decide

/-- C9, amended: an error is logged only when its message differs from the
most recently logged message, so no two consecutive logged messages are equal;
a distinct message can be logged again once a different message intervenes. -/
theorem c9_log_consecutive_distinct (events : List (Option String)) :
    (logRun events).log.Chain' (· ≠ ·) :=
  (logRun_inv events { prevErrorMessage := none, log := [] } ⟨List.chain'_nil, rfl⟩).1

/-- C10: the snapshot key concatenates the subject identifier and the sort
mode with no separator, so the key function is not injective: two distinct
(subject, sort mode) pairs collide, for the author key and for the profile
key, and a snapshot saved under the first pair is the one found when loading
under the second. -/
theorem c10_key_collision :
    snapshotKey (some "ab") (some "c") = snapshotKey (some "a") (some "bc")
    ∧ ((some "ab", some "c") : Option String × Option String) ≠ (some "a", some "bc")
    ∧ profileSnapshotKey (some "ab") (some "c") = profileSnapshotKey (some "a") (some "bc")
    ∧ saveSnapshot emptyStore (snapshotKey (some "ab") (some "c")) ⟨[(0, 3)], 7⟩
        (snapshotKey (some "a") (some "bc")) = some ⟨[(0, 3)], 7⟩ := by decide

end Seedit
